import Mathlib

/-!
Verification development for the fin-tx-ai-agent repository.

The repository is a small Python system: `app/main.py` executes financial
operations (deposit/withdraw/transfer) against stored procedures under a
retry policy; `app/agent.py`, `app/ai_agent.py` and `app/monitor_errors.py`
are three entry points that poll a `dbo.ErrorLog` table incrementally
(tracking a `last_error_id` watermark in a sqlite key/value store),
classify new failures and email a report.

This file is a shallow embedding of that code.  External I/O (the ODBC
data source, the sqlite state store, SMTP, the OpenAI call, stdout/CSV
logging) is lifted into explicit parameters and result values:

* the error log contents, health-check findings and SMTP outcome of a
  cycle are fields of an environment record passed to the cycle function;
* the watermark is threaded explicitly as a `Nat`;
* an exception escaping a function is an explicit `crashed`/`raised`
  constructor rather than a Lean exception;
* `time.sleep` is recorded as the list of requested delay durations (ℚ).

Every definition mirrors the corresponding Python function; doc comments
name the source function.
-/

/-- Model of a `pyodbc.Error` value: its `args` tuple (as strings) and its
`str()` rendering.  Only these two projections are consumed by the code. -/
structure PyError where
  args : List String
  selfText : String
deriving DecidableEq

/-- Text chosen by `_extract_errnum` (main.py lines 60-63):
`str(ex.args[1])` when `len(ex.args) > 1`, else `str(ex)`. -/
def errText (ex : PyError) : String :=
  if ex.args.length > 1 then ex.args.getD 1 "" else ex.selfText

/-- Character substitution performed by `_extract_errnum` (main.py line 64):
`(`, `)`, `#`, `[`, `]` are each replaced by a space before splitting. -/
def sanitize (c : Char) : Char :=
  if c = '(' ∨ c = ')' ∨ c = '#' ∨ c = '[' ∨ c = ']' then ' ' else c

/-- Whitespace split in the manner of Python `str.split()` with no
argument: runs of whitespace separate tokens and empty tokens are
dropped.  `acc` holds the current (reversed) in-progress token. -/
def splitWsAux : List Char → List Char → List String
  | [], acc => if acc.isEmpty then [] else [String.mk acc.reverse]
  | c :: cs, acc =>
    if c.isWhitespace then
      (if acc.isEmpty then [] else [String.mk acc.reverse]) ++ splitWsAux cs []
    else
      splitWsAux cs (c :: acc)

/-- Token list scanned by `_extract_errnum`: the sanitized text split on
whitespace (main.py line 64). -/
def pyTokens (s : String) : List String :=
  splitWsAux (s.toList.map sanitize) []

/-- Python `str.isdigit` restricted to ASCII: nonempty and all digits. -/
def pyIsDigit (t : String) : Bool :=
  !t.toList.isEmpty && t.toList.all Char.isDigit

/-- Value of Python `int(tok)` for an all-digit token. -/
def digitsVal (t : String) : Nat :=
  t.toList.foldl (fun n c => 10 * n + (c.toNat - 48)) 0

/-- `_extract_errnum` (main.py lines 57-69): best-effort numeric-token scan
of the failure text; the first all-digit token is returned as the error
number, `none` when there is no such token.  The `for` loop returning the
first match is `List.find?`; the surrounding `try/except` never fires in
this model because every step is total. -/
def _extract_errnum (ex : PyError) : Option Int :=
  ((pyTokens (errText ex)).find? (fun t => pyIsDigit t)).map
    (fun t => (digitsVal t : Int))

/-- `TRANSIENT_ERRORS` (main.py line 54): the retry-eligible codes. -/
def TRANSIENT_ERRORS : List Int := [1205, 1222, 4060, 40197, 40501, 49918, 49919, 49920]

/-- `BUSINESS_ERRORS` (main.py line 55): expected business rejections. -/
def BUSINESS_ERRORS : List Int := [50001, 50002, 50003, 2601]

/-- Membership test `errnum in SET` where `errnum` may be Python `None`. -/
def inCodes (o : Option Int) (l : List Int) : Bool :=
  match o with
  | some n => l.contains n
  | none => false

/-- `is_business_error` (main.py lines 71-72). -/
def is_business_error (ex : PyError) : Bool :=
  inCodes (_extract_errnum ex) BUSINESS_ERRORS

/-- Terminal result of a retried call: the wrapped function returned a
value, or the final exception propagated out of the wrapper. -/
inductive RetryOut (α : Type) where
  | done (v : α)
  | raised (ex : PyError)
deriving DecidableEq

/-- Observable behaviour of one `with_retry`-wrapped call: the terminal
result, the list of `time.sleep` durations requested (in order), and how
many times the wrapped function was invoked. -/
structure RetryRun (α : Type) where
  out : RetryOut α
  delays : List ℚ
  calls : Nat
deriving DecidableEq

/-- Loop body of the `with_retry` wrapper (main.py lines 78-91), entered
with the 1-based attempt counter.  `fn attempt` is the outcome of the
`attempt`-th invocation of the wrapped function: a returned value or a
raised `pyodbc.Error`.  On a transient error with attempts remaining the
wrapper sleeps `base_delay * attempt` and retries; otherwise it re-raises. -/
def retryFrom {α : Type} (fn : Nat → Except PyError α) (max_attempts : Nat)
    (base_delay : ℚ) (attempt : Nat) : RetryRun α :=
  match fn attempt with
  | Except.ok v => ⟨RetryOut.done v, [], 1⟩
  | Except.error ex =>
    if h : inCodes (_extract_errnum ex) TRANSIENT_ERRORS = true ∧ attempt < max_attempts then
      let r := retryFrom fn max_attempts base_delay (attempt + 1)
      ⟨r.out, base_delay * (attempt : ℚ) :: r.delays, r.calls + 1⟩
    else
      ⟨RetryOut.raised ex, [], 1⟩
termination_by max_attempts - attempt
decreasing_by
  omega

/-- `with_retry(max_attempts, base_delay)` applied to a function
(main.py lines 74-93).  The decorator's defaults are `max_attempts = 3`
and `base_delay = 0.8` (modelled as the exact rational 4/5). -/
def with_retry {α : Type} (max_attempts : Nat) (base_delay : ℚ)
    (fn : Nat → Except PyError α) : RetryRun α :=
  retryFrom fn max_attempts base_delay 1

/-- Outcome of one `EXEC dbo.usp_...` call inside an operation body. -/
inductive SqlRes where
  | ok
  | fail (ex : PyError)
deriving DecidableEq

/-- Transaction disposition of one operation attempt. -/
inductive TxEffect where
  | committed
  | rolledBack
deriving DecidableEq

/-- Value returned (rather than raised) by one operation attempt:
`retNone` models the implicit `None` of the success path, `retFalse`
models `return False` on a business error. -/
inductive InnerVal where
  | retNone
  | retFalse
deriving DecidableEq

/-- Shared `try/except` body of `deposit`, `withdraw` and `transfer`
(main.py lines 108-120, 126-138, 144-156; the three handlers are
verbatim-identical up to SQL text and log strings, which are external
I/O).  On success the transaction commits and the function returns.  On a
`pyodbc.Error` the transaction is rolled back first; then a business
error returns `False` while any other error re-raises. -/
def opBody (r : SqlRes) : TxEffect × Except PyError InnerVal :=
  match r with
  | SqlRes.ok => (TxEffect.committed, Except.ok InnerVal.retNone)
  | SqlRes.fail ex =>
    (TxEffect.rolledBack,
      if is_business_error ex then Except.ok InnerVal.retFalse else Except.error ex)

/-- `deposit` (main.py lines 104-120): the operation body under
`with_retry`.  `fn n` is the SQL outcome of the `n`-th attempt. -/
def deposit (fn : Nat → SqlRes) (max_attempts : Nat) (base_delay : ℚ) : RetryRun InnerVal :=
  with_retry max_attempts base_delay (fun n => (opBody (fn n)).2)

/-- `withdraw` (main.py lines 122-138). -/
def withdraw (fn : Nat → SqlRes) (max_attempts : Nat) (base_delay : ℚ) : RetryRun InnerVal :=
  with_retry max_attempts base_delay (fun n => (opBody (fn n)).2)

/-- `transfer` (main.py lines 140-156). -/
def transfer (fn : Nat → SqlRes) (max_attempts : Nat) (base_delay : ℚ) : RetryRun InnerVal :=
  with_retry max_attempts base_delay (fun n => (opBody (fn n)).2)

/-- The `ErrorNumber` column value as seen by `classify_and_plan`: the
database may hand back an integer or a string. -/
inductive ErrVal where
  | intVal (n : Int)
  | strVal (s : String)
deriving DecidableEq

/-- Python `str(num)` for an `ErrorNumber` value. -/
def pyStrOfErrVal : ErrVal → String
  | ErrVal.intVal n => toString n
  | ErrVal.strVal s => s

/-- Normalization at agent.py line 112:
`num = int(num) if isinstance(num, (int,)) or (str(num).isdigit()) else None`. -/
def pyNum : ErrVal → Option Int
  | ErrVal.intVal n => some n
  | ErrVal.strVal s => if pyIsDigit s then some (digitsVal s : Int) else none

/-- One row of `dbo.ErrorLog` as fetched by the agents
(`ErrorID, ProcName, ErrorNumber, ErrorMessage, OccurredAt`).
`OccurredAt` is kept as its rendered text, which is all the code uses. -/
structure ErrRow where
  errorId : Nat
  procName : String
  errorNumber : ErrVal
  message : String
  occurredAt : String
deriving DecidableEq

/-- Remediation text for codes 2601/2627 (agent.py lines 117-123). -/
def dup_ref_plan : String :=
  "Duplicate reference detected. Action: verify the ref, keep the earliest TransactionID, void/cancel the duplicates. Suggested SQL:\n  ;WITH c AS (\n    SELECT TransactionID, ROW_NUMBER() OVER (PARTITION BY Ref ORDER BY TransactionID) rn\n    FROM dbo.Transactions WHERE Ref = @Ref\n  )\n  DELETE T FROM dbo.Transactions T JOIN c ON c.TransactionID=T.TransactionID WHERE c.rn > 1;\n"

/-- Remediation text for code 50003 (agent.py lines 125-126). -/
def insufficient_funds_plan : String :=
  "Insufficient funds. Action: deposit to the source account, reduce transfer amount, or retry later."

/-- Remediation text for codes 1205/1222 (agent.py lines 128-129). -/
def transient_concurrency_plan : String :=
  "Transient concurrency issue. Action: retry with backoff. Our Python client already retries (A2)."

/-- `classify_and_plan` (agent.py lines 106-131): maps an error row to a
`(severity, plan)` pair.  Pure and total; the default branch echoes the
procedure name (`proc or "unknown"`) and message. -/
def classify_and_plan (row : ErrRow) : String × String :=
  let num := pyNum row.errorNumber
  let proc := if row.procName = "" then "unknown" else row.procName
  if num = some 2601 ∨ num = some 2627 then
    ("P2", dup_ref_plan)
  else if num = some 50003 then
    ("P3", insufficient_funds_plan)
  else if num = some 1205 ∨ num = some 1222 then
    ("P2", transient_concurrency_plan)
  else
    ("P2", "Investigate in SSMS. Procedure=" ++ proc ++ ", Message=" ++ row.message)

/-- SMTP configuration as read from the environment by the three entry
points.  Absent variables are the empty string / empty list; `port`
defaults to 587 in the source, with 0 modelling a falsy value. -/
structure SmtpCfg where
  host : String
  port : Nat
  user : String
  passwd : String
  toAddrs : List String
deriving DecidableEq

/-- Result of a call to one of the `send_email` helpers:
`sent` — the SMTP transaction completed; `skippedCfg` — the helper
returned immediately because the configuration is incomplete (it only
logs a warning); `raisedSend` — `smtplib` raised, so the exception
escapes the helper. -/
inductive SendResult where
  | sent
  | skippedCfg
  | raisedSend
deriving DecidableEq

/-- Truthiness check of `send_email` in agent.py line 64:
`SMTP_HOST and SMTP_PORT and SMTP_USER and SMTP_PASS and SMTP_TO`. -/
def agentSmtpConfigured (cfg : SmtpCfg) : Bool :=
  !(cfg.host = "") && !(cfg.port = 0) && !(cfg.user = "") && !(cfg.passwd = "") && !cfg.toAddrs.isEmpty

/-- Truthiness check of `send_email` in ai_agent.py line 239:
`not SMTP_HOST or not SMTP_USER or not SMTP_PASS or not SMTP_TO` skips. -/
def aiSmtpConfigured (cfg : SmtpCfg) : Bool :=
  !(cfg.host = "") && !(cfg.user = "") && !(cfg.passwd = "") && !cfg.toAddrs.isEmpty

/-- Truthiness check of `send_email` in monitor_errors.py line 63:
`SMTP_HOST and SMTP_USER and SMTP_PASS and SMTP_TO`. -/
def monitorSmtpConfigured (cfg : SmtpCfg) : Bool :=
  !(cfg.host = "") && !(cfg.user = "") && !(cfg.passwd = "") && !cfg.toAddrs.isEmpty

/-- `send_email` of agent.py (lines 63-77).  When the configuration is
incomplete it logs a warning and returns normally without sending.
Otherwise the SMTP conversation either completes or raises; `smtpOk`
is the outcome of that external interaction.  The message content never
influences the outcome. -/
def agent_send_email (cfg : SmtpCfg) (smtpOk : Bool) : SendResult :=
  if !agentSmtpConfigured cfg then SendResult.skippedCfg
  else if smtpOk then SendResult.sent
  else SendResult.raisedSend

/-- `send_email` of ai_agent.py (lines 238-255); prints a notice and
returns when the configuration is incomplete. -/
def ai_send_email (cfg : SmtpCfg) (smtpOk : Bool) : SendResult :=
  if !aiSmtpConfigured cfg then SendResult.skippedCfg
  else if smtpOk then SendResult.sent
  else SendResult.raisedSend

/-- `send_email` of monitor_errors.py (lines 62-73). -/
def monitor_send_email (cfg : SmtpCfg) (smtpOk : Bool) : SendResult :=
  if !monitorSmtpConfigured cfg then SendResult.skippedCfg
  else if smtpOk then SendResult.sent
  else SendResult.raisedSend

/-- `fetch_new_errors` (agent.py lines 80-89, ai_agent.py lines 44-53,
monitor_errors.py lines 35-40, identical query):
`SELECT ... FROM dbo.ErrorLog WHERE ErrorID > ? ORDER BY ErrorID`.
The `log` parameter is the table contents in `ErrorID` order; the SQL
`ORDER BY` is the hypothesis that `log` is sorted where a proof needs it. -/
def fetch_new_errors (log : List ErrRow) (sinceId : Nat) : List ErrRow :=
  log.filter (fun r => sinceId < r.errorId)

/-- A health-check finding: one opaque row tuple, rendered as strings. -/
abbrev Finding := List String

/-- CSS block `style` of `html_report` (agent.py lines 138-151). -/
def agentStyle : String :=
  "\n    <style>\n      body \x7b font-family: Segoe UI, Arial, sans-serif; color:#0f172a; \x7d\n      .card \x7b border:1px solid #e2e8f0; border-radius:10px; padding:16px; margin-bottom:16px; \x7d\n      .h \x7b font-size:16px; font-weight:600; margin:0 0 10px 0;\x7d\n      table \x7b border-collapse: collapse; width:100%; \x7d\n      th, td \x7b border-bottom:1px solid #e2e8f0; padding:8px; text-align:left; font-size:13px; \x7d\n      th \x7b background:#f8fafc; \x7d\n      .pill \x7b padding:2px 8px; border-radius:999px; color:white; font-size:11px; \x7d\n      .P1 \x7b background:#dc2626; \x7d .P2 \x7b background:#d97706; \x7d .P3 \x7b background:#059669; \x7d .INFO \x7b background:#64748b; \x7d\n      .mono \x7b font-family: Consolas, monospace; \x7d\n      .footer \x7b color:#64748b; font-size:12px; margin-top:8px; \x7d\n    </style>\n    "

/-- One `<tr>` of the new-errors table (agent.py lines 159-166). -/
def agentErrorRowHtml (e : ErrRow) : String :=
  let sevPlan := classify_and_plan e
  "<tr><td>" ++ toString e.errorId ++ "</td><td class=\x27mono\x27>" ++ e.occurredAt ++
    "</td><td>" ++ e.procName ++ "</td>" ++
    "<td><span class=\x27pill " ++ sevPlan.1 ++ "\x27>" ++ sevPlan.1 ++
    "</span> <span class=\x27mono\x27>" ++ pyStrOfErrVal e.errorNumber ++ "</span></td>" ++
    "<td><pre class=\x27mono\x27 style=\x27white-space:pre-wrap\x27>" ++ sevPlan.2 ++
    "</pre></td></tr>"

/-- One `<tr>` of the health-findings table (agent.py lines 172-175). -/
def agentHealthRowHtml (it : Finding) : String :=
  "<tr>" ++ String.join (it.map (fun x => "<td class=\x27mono\x27>" ++ x ++ "</td>")) ++ "</tr>"

/-- `html_report` (agent.py lines 134-179): the Report Builder.  Returns
`none` when both inputs are empty; otherwise the assembled HTML document.
The wall-clock header is the `now` parameter (the code reads
`dt.datetime.utcnow()`). -/
def html_report (now : String) (new_errors : List ErrRow) (health_issues : List Finding) :
    Option String :=
  if new_errors.isEmpty && health_issues.isEmpty then none
  else
    let head := "<!doctype html><html><head>" ++ agentStyle ++ "</head><body>" ++
      "<div class=\x27card\x27><div class=\x27h\x27>FinTx Agent Report <span class=\x27mono\x27>" ++
      now ++ "</span></div>"
    let errPart :=
      if new_errors.isEmpty then "" else
        "<div class=\x27h\x27>New errors</div>" ++
        "<table><tr><th>ID</th><th>When (UTC)</th><th>Proc</th><th>Err#</th><th>Plan</th></tr>" ++
        String.join (new_errors.map agentErrorRowHtml) ++ "</table>"
    let healthPart :=
      if health_issues.isEmpty then "" else
        "<div class=\x27h\x27 style=\x27margin-top:14px\x27>Health findings</div>" ++
        "<table><tr><th>Check</th><th>Key</th><th>Value</th></tr>" ++
        String.join (health_issues.map agentHealthRowHtml) ++ "</table>"
    some (head ++ errPart ++ healthPart ++
      "<div class=\x27footer\x27>This message was generated by FinTx Agent.</div></div></body></html>")

/-- `rows[-1][0]` guarded by `if rows:`: the `ErrorID` of the last fetched
row, or the unchanged watermark when nothing was fetched. -/
def lastRowId (rows : List ErrRow) (lastId : Nat) : Nat :=
  match rows.getLast? with
  | some r => r.errorId
  | none => lastId

/-- Maximum of a list of naturals (`max(...)` in Python, 0 when empty). -/
def foldMax (l : List Nat) : Nat :=
  l.foldr Nat.max 0

/-- Observable result of one poll cycle of an entry point:
the watermark stored afterwards, whether `send_email` was invoked and
with what result, whether an exception escaped the cycle (`crashed`),
and the rows fetched for the report. -/
structure CycleResult where
  watermark : Nat
  sendAttempted : Bool
  sendResult : Option SendResult
  crashed : Bool
  fetched : List ErrRow
deriving DecidableEq

/-- External inputs of one agent.py cycle: the error-log contents, the
flattened health-check result sets, the SMTP configuration and outcome,
and the rendered timestamp. -/
structure AgentEnv where
  log : List ErrRow
  issues : List Finding
  cfg : SmtpCfg
  smtpOk : Bool
  now : String
deriving DecidableEq

/-- `main` of agent.py (lines 182-193), one poll cycle.  Reads the
watermark, fetches rows strictly past it, runs the health check, builds
the report; when a report exists it is sent (a raised SMTP exception
aborts the cycle before the watermark write); finally, when rows were
fetched, the watermark is set to `rows[-1][0]`. -/
def agent_main (env : AgentEnv) (lastId : Nat) : CycleResult :=
  let rows := fetch_new_errors env.log lastId
  match html_report env.now rows env.issues with
  | none =>
    { watermark := lastRowId rows lastId, sendAttempted := false, sendResult := none,
      crashed := false, fetched := rows }
  | some _ =>
    let res := agent_send_email env.cfg env.smtpOk
    if res = SendResult.raisedSend then
      { watermark := lastId, sendAttempted := true, sendResult := some res,
        crashed := true, fetched := rows }
    else
      { watermark := lastRowId rows lastId, sendAttempted := true, sendResult := some res,
        crashed := false, fetched := rows }

/-- External inputs of one ai_agent.py cycle.  The OpenAI summary and the
HTML rendering affect only the message body, never the control flow, and
are therefore not part of the state model. -/
structure AiEnv where
  log : List ErrRow
  issues : List Finding
  cfg : SmtpCfg
  smtpOk : Bool
  sendWhenIdle : Bool
deriving DecidableEq

/-- `run_once` of ai_agent.py (lines 272-308), one poll cycle.
`new_last` is `max(r.ErrorID for r in err_rows)` when rows exist.  With
no rows, no findings and the idle-send flag off the cycle is skipped.
Otherwise the report is summarized and emailed; a raised SMTP exception
aborts the cycle before the watermark write at line 307. -/
def run_once (env : AiEnv) (last : Nat) : CycleResult :=
  let err_rows := fetch_new_errors env.log last
  let new_last := if err_rows.isEmpty then last else foldMax (err_rows.map (fun r => r.errorId))
  if err_rows.isEmpty && env.issues.isEmpty && !env.sendWhenIdle then
    { watermark := if new_last ≠ last then new_last else last, sendAttempted := false,
      sendResult := none, crashed := false, fetched := err_rows }
  else
    let res := ai_send_email env.cfg env.smtpOk
    if res = SendResult.raisedSend then
      { watermark := last, sendAttempted := true, sendResult := some res,
        crashed := true, fetched := err_rows }
    else
      { watermark := if new_last ≠ last then new_last else last, sendAttempted := true,
        sendResult := some res, crashed := false, fetched := err_rows }

/-- External inputs of one monitor_errors.py cycle.  The CSV audit append
and console printing are output-only and not part of the state model. -/
structure MonitorEnv where
  log : List ErrRow
  issues : List Finding
  cfg : SmtpCfg
  smtpOk : Bool
deriving DecidableEq

/-- The `__main__` block of monitor_errors.py (lines 83-111), one poll
cycle.  Note the order: the watermark is written (`set_last_id`,
line 92) as soon as rows are fetched, before the health check and before
`send_email` is attempted at line 109. -/
def monitor_main (env : MonitorEnv) (last : Nat) : CycleResult :=
  let rows := fetch_new_errors env.log last
  let w1 := lastRowId rows last
  if !rows.isEmpty || !env.issues.isEmpty then
    let res := monitor_send_email env.cfg env.smtpOk
    if res = SendResult.raisedSend then
      { watermark := w1, sendAttempted := true, sendResult := some res,
        crashed := true, fetched := rows }
    else
      { watermark := w1, sendAttempted := true, sendResult := some res,
        crashed := false, fetched := rows }
  else
    { watermark := w1, sendAttempted := false, sendResult := none,
      crashed := false, fetched := rows }

/-- Watermark after running a sequence of cycles of a given entry point,
threading each cycle's stored watermark into the next. -/
def traceW {E : Type} (step : E → Nat → CycleResult) : Nat → List E → Nat
  | w, [] => w
  | w, e :: es => traceW step (step e w).watermark es

/-- Ids that were part of the report of a cycle whose delivery step
completed (the send call returned, or no send was needed): the ids that
at-least-once delivery considers handed off. -/
def cycleDelivered (c : CycleResult) : List Nat :=
  if c.crashed then [] else c.fetched.map (fun r => r.errorId)

/-- All ids handed off across a sequence of cycles. -/
def traceDelivered {E : Type} (step : E → Nat → CycleResult) : Nat → List E → List Nat
  | _, [] => []
  | w, e :: es => cycleDelivered (step e w) ++ traceDelivered step (step e w).watermark es

/-- All ids fetched (hence reported) across a sequence of cycles. -/
def traceFetched {E : Type} (step : E → Nat → CycleResult) : Nat → List E → List Nat
  | _, [] => []
  | w, e :: es =>
    (step e w).fetched.map (fun r => r.errorId) ++ traceFetched step (step e w).watermark es

/-- Strictly ascending `ErrorID` order, the invariant the data source
guarantees on fetch results (`ORDER BY ErrorID` over an identity key). -/
def logSorted (log : List ErrRow) : Prop :=
  log.Pairwise (fun a b => a.errorId < b.errorId)

instance (log : List ErrRow) : Decidable (logSorted log) := by
  unfold logSorted; infer_instance

/-- Concrete failure whose text carries deadlock code 1205. -/
def exDeadlock : PyError :=
  ⟨[], "Transaction was deadlocked on lock resources: 1205"⟩

/-- Concrete failure whose text carries insufficient-funds code 50003. -/
def exFunds : PyError := ⟨[], "Insufficient funds: 50003"⟩

/-- Concrete failure whose text carries duplicate-key code 2627. -/
def exDup2627 : PyError := ⟨[], "Violation of UNIQUE KEY constraint: 2627"⟩

/-- Concrete failure whose text carries duplicate-key code 2601. -/
def exDup2601 : PyError := ⟨[], "Cannot insert duplicate key row: 2601"⟩

/-- Concrete error-log row with id 1. -/
def cexRow : ErrRow :=
  ⟨1, "usp_TransferFunds", ErrVal.intVal 50003, "Insufficient funds", "2026-02-01 10:00:00"⟩

/-- Concrete error-log row with id 2. -/
def cexRow2 : ErrRow :=
  ⟨2, "usp_Withdraw", ErrVal.intVal 1205, "Deadlock victim", "2026-02-01 10:01:00"⟩

/-- Fully populated SMTP configuration. -/
def cexCfg : SmtpCfg :=
  ⟨"smtp.example.com", 587, "agent@example.com", "secret", ["ops@example.com"]⟩

/-- Incomplete SMTP configuration (no host, no credentials). -/
def cexNoCfg : SmtpCfg := ⟨"", 587, "", "", []⟩

/-- monitor_errors.py cycle input with one new row and a failing SMTP. -/
def cexMonitorEnv : MonitorEnv := ⟨[cexRow], [], cexCfg, false⟩

/-- agent.py cycle input with one new row and a failing SMTP. -/
def cexAgentEnv : AgentEnv := ⟨[cexRow], [], cexCfg, false, "2026-02-01 10:05:00Z"⟩

/-- agent.py cycle input with one new row and a working SMTP. -/
def cexAgentEnvOk : AgentEnv := ⟨[cexRow], [], cexCfg, true, "2026-02-01 10:05:00Z"⟩

/-- ai_agent.py cycle input with one new row and a working SMTP. -/
def cexAiEnvOk : AiEnv := ⟨[cexRow], [], cexCfg, true, false⟩

/-- agent.py cycle input with an empty error log and no findings. -/
def cexAgentEnvEmpty : AgentEnv := ⟨[], [], cexCfg, true, "2026-02-01 10:05:00Z"⟩

/-- agent.py cycle input with one new row and incomplete SMTP settings. -/
def cexAgentEnvNoCfg : AgentEnv := ⟨[cexRow], [], cexNoCfg, true, "2026-02-01 10:05:00Z"⟩

/-- ai_agent.py cycle input with one new row and incomplete SMTP settings. -/
def cexAiEnvNoCfg : AiEnv := ⟨[cexRow], [], cexNoCfg, true, false⟩

/-- Concrete failure whose text contains no digit token at all. -/
def exNoDigits : PyError := ⟨[], "login timeout expired while connecting"⟩

/-! Helper lemmas about lists, the fetch filter and the cycle steps. -/

/-- The last element of a list is a member. -/
theorem getLast?_mem_list {α : Type} : ∀ (l : List α) (a : α), l.getLast? = some a → a ∈ l
  | [], _, h => by simp at h
  | [x], a, h => by
    simp only [List.getLast?_singleton, Option.some.injEq] at h
    simp [h]
  | x :: y :: t, a, h => by
    rw [List.getLast?_cons_cons] at h
    exact List.mem_cons_of_mem x (getLast?_mem_list (y :: t) a h)

/-- `getLast?` commutes with `map`. -/
theorem getLast?_map_eq {α β : Type} (f : α → β) :
    ∀ (l : List α), (l.map f).getLast? = l.getLast?.map f
  | [] => rfl
  | [_] => rfl
  | x :: y :: t => by
    rw [List.map_cons, List.map_cons, List.getLast?_cons_cons, List.getLast?_cons_cons,
      ← List.map_cons]
    exact getLast?_map_eq f (y :: t)

theorem foldMax_nil : foldMax [] = 0 := rfl

theorem foldMax_cons (x : Nat) (t : List Nat) : foldMax (x :: t) = Nat.max x (foldMax t) := rfl

theorem foldMax_append (l₁ l₂ : List Nat) :
    foldMax (l₁ ++ l₂) = Nat.max (foldMax l₁) (foldMax l₂) := by
  induction l₁ with
  | nil => simp [foldMax_nil, foldMax_cons]
  | cons x t ih =>
    rw [List.cons_append, foldMax_cons, foldMax_cons, ih]
    exact (Nat.max_assoc x (foldMax t) (foldMax l₂)).symm

/-- Every member is bounded by the list maximum. -/
theorem le_foldMax {l : List Nat} {a : Nat} (h : a ∈ l) : a ≤ foldMax l := by
  induction l with
  | nil => simp at h
  | cons x t ih =>
    rcases List.mem_cons.mp h with h1 | h2
    · rw [h1, foldMax_cons]; exact Nat.le_max_left x (foldMax t)
    · rw [foldMax_cons]; exact le_trans (ih h2) (Nat.le_max_right x (foldMax t))

/-- In a strictly ascending list the last element is the maximum. -/
theorem sorted_getLast?_foldMax :
    ∀ (l : List Nat), l.Pairwise (· < ·) → ∀ a, l.getLast? = some a → foldMax l = a
  | [], _, a, h => by simp at h
  | [x], _, a, h => by
    simp only [List.getLast?_singleton, Option.some.injEq] at h
    simp [foldMax_cons, foldMax_nil, h]
  | x :: y :: t, hp, a, h => by
    rw [List.getLast?_cons_cons] at h
    have htail : (y :: t).Pairwise (fun a b => a < b) := hp.of_cons
    have hrec := sorted_getLast?_foldMax (y :: t) htail a h
    have hxa : x < a := (List.pairwise_cons.mp hp).1 a (getLast?_mem_list (y :: t) a h)
    rw [foldMax_cons, hrec]
    exact Nat.max_eq_right (le_of_lt hxa)

/-- Everything `fetch_new_errors` returns has an id strictly past the
watermark. -/
theorem fetch_mem_gt {log : List ErrRow} {w : Nat} {r : ErrRow}
    (h : r ∈ fetch_new_errors log w) : w < r.errorId := by
  have := List.mem_filter.mp h
  simpa using this.2

/-- The fetch filter preserves the ascending-id invariant. -/
theorem fetch_sorted {log : List ErrRow} (w : Nat) (h : logSorted log) :
    logSorted (fetch_new_errors log w) :=
  h.filter _

theorem lastRowId_le {rows : List ErrRow} {w : Nat}
    (hall : ∀ r ∈ rows, w < r.errorId) : w ≤ lastRowId rows w := by
  unfold lastRowId
  cases h : rows.getLast? with
  | none => exact le_refl w
  | some r => exact le_of_lt (hall r (getLast?_mem_list rows r h))

/-- With an ascending row list strictly past the watermark, `rows[-1][0]`
equals the running maximum the specification talks about. -/
theorem lastRowId_foldMax {rows : List ErrRow} {w : Nat}
    (hs : logSorted rows) (hall : ∀ r ∈ rows, w < r.errorId) :
    lastRowId rows w = Nat.max w (foldMax (rows.map (fun r => r.errorId))) := by
  cases rows with
  | nil => simp [lastRowId, foldMax_nil]
  | cons a t =>
    have hne : a :: t ≠ [] := List.cons_ne_nil a t
    have h : (a :: t).getLast? = some ((a :: t).getLast hne) :=
      List.getLast?_eq_getLast_of_ne_nil hne
    have hmap : ((a :: t).map (fun r => r.errorId)).getLast? =
        some ((a :: t).getLast hne).errorId := by
      rw [getLast?_map_eq, h]; rfl
    have hsm : ((a :: t).map (fun r => r.errorId)).Pairwise (· < ·) :=
      hs.map _ (fun x y hxy => hxy)
    have hfold := sorted_getLast?_foldMax _ hsm _ hmap
    have hw : w < ((a :: t).getLast hne).errorId :=
      hall _ (getLast?_mem_list (a :: t) _ h)
    rw [lastRowId, h, hfold]
    exact (Nat.max_eq_right (le_of_lt hw)).symm

/-- The Report Builder yields no report exactly when handed nothing. -/
theorem html_report_none_iff (now : String) (rows : List ErrRow) (issues : List Finding) :
    html_report now rows issues = none ↔ rows = [] ∧ issues = [] := by
  unfold html_report
  by_cases hc : (rows.isEmpty && issues.isEmpty) = true
  · simp only [hc, if_true]
    have := Bool.and_eq_true_iff.mp hc
    simp [List.isEmpty_iff.mp this.1, List.isEmpty_iff.mp this.2]
  · simp only [Bool.not_eq_true] at hc
    simp only [hc, Bool.false_eq_true, if_false]
    constructor
    · intro hcontra; exact absurd hcontra (Option.some_ne_none _)
    · rintro ⟨h1, h2⟩
      rw [h1, h2] at hc
      simp at hc


/-- The rows an agent.py cycle reports are exactly the fetch. -/
theorem agent_main_fetched (env : AgentEnv) (w : Nat) :
    (agent_main env w).fetched = fetch_new_errors env.log w := by
  simp only [agent_main]
  split
  · rfl
  · split <;> rfl

/-- An agent.py cycle never moves the watermark backwards. -/
theorem agent_main_mono (env : AgentEnv) (w : Nat) : w ≤ (agent_main env w).watermark := by
  have hall : ∀ r ∈ fetch_new_errors env.log w, w < r.errorId := fun r hr => fetch_mem_gt hr
  have hle := lastRowId_le hall
  simp only [agent_main]
  split
  · exact hle
  · split
    · exact le_refl w
    · exact hle

/-- One agent.py cycle: the stored watermark equals the old one joined
with the maximum id handed off in that cycle. -/
theorem agent_main_fold (env : AgentEnv) (w : Nat) (hs : logSorted env.log) :
    (agent_main env w).watermark =
      Nat.max w (foldMax (cycleDelivered (agent_main env w))) := by
  have hall : ∀ r ∈ fetch_new_errors env.log w, w < r.errorId := fun r hr => fetch_mem_gt hr
  have hsf : logSorted (fetch_new_errors env.log w) := fetch_sorted w hs
  have heq := lastRowId_foldMax hsf hall
  simp only [agent_main]
  split
  · simpa [cycleDelivered] using heq
  · split
    · simp [cycleDelivered, foldMax_nil]
    · simpa [cycleDelivered] using heq

/-- The rows an ai_agent.py cycle reports are exactly the fetch. -/
theorem run_once_fetched (env : AiEnv) (w : Nat) :
    (run_once env w).fetched = fetch_new_errors env.log w := by
  simp only [run_once]
  split
  · rfl
  · split <;> rfl

/-- Helper: the conditional watermark write `if new ≠ last then new else last`
cannot move below `last` when `last ≤ new`. -/
theorem ite_ne_watermark_ge (w n : Nat) (h : w ≤ n) :
    w ≤ if n ≠ w then n else w := by
  split
  · exact h
  · exact le_refl w

/-- An ai_agent.py cycle never moves the watermark backwards. -/
theorem run_once_mono (env : AiEnv) (w : Nat) : w ≤ (run_once env w).watermark := by
  have hall : ∀ r ∈ fetch_new_errors env.log w, w < r.errorId := fun r hr => fetch_mem_gt hr
  by_cases he : fetch_new_errors env.log w = []
  · simp only [run_once, he, List.isEmpty_nil, List.map_nil, if_true, ne_eq]
    split
    · simp
    · split <;> simp
  · have hie : (fetch_new_errors env.log w).isEmpty = false := by
      cases hfe : fetch_new_errors env.log w with
      | nil => exact absurd hfe he
      | cons a t => rfl
    rcases List.exists_mem_of_ne_nil _ he with ⟨r, hr⟩
    have hfold : w ≤ foldMax ((fetch_new_errors env.log w).map (fun r => r.errorId)) :=
      le_trans (le_of_lt (hall r hr)) (le_foldMax (List.mem_map_of_mem _ hr))
    simp only [run_once, hie, Bool.false_and, Bool.false_eq_true, if_false, ne_eq]
    split
    · exact le_refl w
    · exact ite_ne_watermark_ge w _ hfold

/-- One ai_agent.py cycle: the stored watermark equals the old one joined
with the maximum id handed off in that cycle. -/
theorem run_once_fold (env : AiEnv) (w : Nat) :
    (run_once env w).watermark =
      Nat.max w (foldMax (cycleDelivered (run_once env w))) := by
  have hall : ∀ r ∈ fetch_new_errors env.log w, w < r.errorId := fun r hr => fetch_mem_gt hr
  by_cases he : fetch_new_errors env.log w = []
  · simp only [run_once, he, List.isEmpty_nil, List.map_nil, if_true, ne_eq]
    split
    · simp [cycleDelivered, foldMax_nil]
    · split <;> simp [cycleDelivered, foldMax_nil]
  · have hie : (fetch_new_errors env.log w).isEmpty = false := by
      cases hfe : fetch_new_errors env.log w with
      | nil => exact absurd hfe he
      | cons a t => rfl
    rcases List.exists_mem_of_ne_nil _ he with ⟨r, hr⟩
    have hgt : w < foldMax ((fetch_new_errors env.log w).map (fun r => r.errorId)) :=
      lt_of_lt_of_le (hall r hr) (le_foldMax (List.mem_map_of_mem _ hr))
    have hne : ¬(foldMax ((fetch_new_errors env.log w).map (fun r => r.errorId)) = w) := by
      intro hcontra
      rw [hcontra] at hgt
      exact lt_irrefl w hgt
    have hmax : Nat.max w (foldMax ((fetch_new_errors env.log w).map (fun r => r.errorId))) =
        foldMax ((fetch_new_errors env.log w).map (fun r => r.errorId)) :=
      Nat.max_eq_right (le_of_lt hgt)
    simp only [run_once, hie, Bool.false_and, Bool.false_eq_true, if_false, ne_eq]
    split
    · simp [cycleDelivered, foldMax_nil]
    · simp [cycleDelivered, hne, hmax]

/-- Running a trace in two parts composes the watermarks. -/
theorem traceW_append {E : Type} (step : E → Nat → CycleResult) :
    ∀ (pre post : List E) (w : Nat),
      traceW step w (pre ++ post) = traceW step (traceW step w pre) post := by
  intro pre
  induction pre with
  | nil => intro post w; rfl
  | cons e t ih => intro post w; exact ih post (step e w).watermark

/-- A step-wise monotone cycle keeps the watermark monotone over traces. -/
theorem traceW_le {E : Type} (step : E → Nat → CycleResult)
    (hmono : ∀ e w, w ≤ (step e w).watermark) :
    ∀ (es : List E) (w : Nat), w ≤ traceW step w es := by
  intro es
  induction es with
  | nil => intro w; exact le_refl w
  | cons e t ih => intro w; exact le_trans (hmono e w) (ih (step e w).watermark)

/-- If each cycle joins the watermark with its own delivered maximum, the
trace watermark is the join of the initial value with every delivered id. -/
theorem traceW_foldMax {E : Type} (step : E → Nat → CycleResult) (ok : E → Prop)
    (hstep : ∀ e w, ok e →
      (step e w).watermark = Nat.max w (foldMax (cycleDelivered (step e w)))) :
    ∀ (es : List E) (w : Nat), (∀ e ∈ es, ok e) →
      traceW step w es = Nat.max w (foldMax (traceDelivered step w es)) := by
  intro es
  induction es with
  | nil => intro w _; simp [traceW, traceDelivered, foldMax_nil]
  | cons e t ih =>
    intro w hok
    have hoke : ok e := hok e (List.mem_cons_self e t)
    have hokt : ∀ x ∈ t, ok x := fun x hx => hok x (List.mem_cons_of_mem e hx)
    have h1 := hstep e w hoke
    calc traceW step w (e :: t)
        = traceW step (step e w).watermark t := rfl
      _ = Nat.max (step e w).watermark
            (foldMax (traceDelivered step (step e w).watermark t)) :=
          ih (step e w).watermark hokt
      _ = Nat.max (Nat.max w (foldMax (cycleDelivered (step e w))))
            (foldMax (traceDelivered step (step e w).watermark t)) := by rw [h1]
      _ = Nat.max w (foldMax (traceDelivered step w (e :: t))) := by
          show _ = Nat.max w (foldMax (cycleDelivered (step e w) ++
            traceDelivered step (step e w).watermark t))
          rw [foldMax_append]
          exact Nat.max_assoc _ _ _

/-- Every id fetched anywhere along a trace lies strictly past the trace's
starting watermark. -/
theorem traceFetched_gt {E : Type} (step : E → Nat → CycleResult)
    (hmono : ∀ e w, w ≤ (step e w).watermark)
    (hgt : ∀ e w j, j ∈ (step e w).fetched.map (fun r => r.errorId) → w < j) :
    ∀ (es : List E) (w : Nat) (j : Nat), j ∈ traceFetched step w es → w < j := by
  intro es
  induction es with
  | nil => intro w j h; simp [traceFetched] at h
  | cons e t ih =>
    intro w j h
    rcases List.mem_append.mp h with h1 | h2
    · exact hgt e w j h1
    · exact lt_of_le_of_lt (hmono e w) (ih (step e w).watermark j h2)

/-- A call whose first attempt returns makes exactly one call, no delay. -/
theorem retryFrom_first_ok {α : Type} (fn : Nat → Except PyError α) (maxA : Nat)
    (base : ℚ) (a : Nat) (v : α) (h : fn a = Except.ok v) :
    retryFrom fn maxA base a = ⟨RetryOut.done v, [], 1⟩ := by
  rw [retryFrom.eq_def, h]

/-- A non-transient failure propagates at once: one call, no delay. -/
theorem retryFrom_first_raise {α : Type} (fn : Nat → Except PyError α) (maxA : Nat)
    (base : ℚ) (a : Nat) (ex : PyError) (h : fn a = Except.error ex)
    (hnt : inCodes (_extract_errnum ex) TRANSIENT_ERRORS = false) :
    retryFrom fn maxA base a = ⟨RetryOut.raised ex, [], 1⟩ := by
  rw [retryFrom.eq_def, h]
  simp [hnt]

/-- Closed form of the retry loop when every attempt fails with the same
transient error: all remaining attempts are consumed, each retry waits
`base * attemptNumber`, and the error finally propagates. -/
theorem retryFrom_all_fail {α : Type} (ex : PyError) (maxA : Nat) (base : ℚ)
    (htr : inCodes (_extract_errnum ex) TRANSIENT_ERRORS = true) :
    ∀ (n a : Nat), maxA - a = n → a ≤ maxA →
      retryFrom (fun _ => (Except.error ex : Except PyError α)) maxA base a =
        ⟨RetryOut.raised ex,
          (List.range (maxA - a)).map (fun i => base * ((a + i : ℕ) : ℚ)),
          maxA - a + 1⟩ := by
  intro n
  induction n with
  | zero =>
    intro a hn hle
    have ha : a = maxA := by omega
    rw [retryFrom.eq_def]
    have hlt : ¬ (inCodes (_extract_errnum ex) TRANSIENT_ERRORS = true ∧ a < maxA) := by
      intro hcontra; omega
    simp [hlt, hn]
  | succ n ih =>
    intro a hn hle
    have hlt : a < maxA := by omega
    have hrec := ih (a + 1) (by omega) (by omega)
    rw [retryFrom.eq_def]
    simp only [htr, hlt, and_self, dite_true, hrec, true_and]
    have hn2 : maxA - (a + 1) = n := by omega
    have hrange : (List.range (maxA - a)).map (fun i => base * ((a + i : ℕ) : ℚ)) =
        base * (a : ℚ) ::
          (List.range (maxA - (a + 1))).map (fun i => base * ((a + 1 + i : ℕ) : ℚ)) := by
      have : maxA - a = n + 1 := hn
      rw [this, hn2, List.range_succ_eq_map, List.map_cons, List.map_map]
      refine congrArg₂ List.cons (by norm_num) ?_
      refine List.map_congr_left ?_
      intro i _
      simp only [Function.comp_apply, Nat.succ_eq_add_one]
      congr 1
      push_cast
      ring
    rw [hrange, hn2, hn]

/-- `with_retry` under an always-failing transient error: closed form. -/
theorem with_retry_all_fail {α : Type} (ex : PyError) (maxA : Nat) (base : ℚ)
    (htr : inCodes (_extract_errnum ex) TRANSIENT_ERRORS = true) (hmax : 1 ≤ maxA) :
    with_retry maxA base (fun _ => (Except.error ex : Except PyError α)) =
      ⟨RetryOut.raised ex,
        (List.range (maxA - 1)).map (fun i => base * ((1 + i : ℕ) : ℚ)), maxA⟩ := by
  have h := @retryFrom_all_fail α ex maxA base htr (maxA - 1) 1 rfl hmax
  rw [with_retry, h]
  have : maxA - 1 + 1 = maxA := by omega
  rw [this]

/-- C4: `classify_and_plan` is total: every integer code outside the
mapping tables, and every non-numeric `ErrorNumber` value, falls through
to the default Unknown outcome with severity P2 and a plan echoing the
procedure name (or "unknown") and the message; being a plain Lean
function of its arguments it raises nothing and performs no I/O. -/
theorem classifier_total_default :
    (∀ (n : Int), n ∉ ([2601, 2627, 50003, 1205, 1222] : List Int) →
      ∀ (id : Nat) (proc msg whenAt : String),
        classify_and_plan ⟨id, proc, ErrVal.intVal n, msg, whenAt⟩ =
          ("P2", "Investigate in SSMS. Procedure=" ++
            (if proc = "" then "unknown" else proc) ++ ", Message=" ++ msg)) ∧
    (∀ (s : String), pyIsDigit s = false →
      ∀ (id : Nat) (proc msg whenAt : String),
        classify_and_plan ⟨id, proc, ErrVal.strVal s, msg, whenAt⟩ =
          ("P2", "Investigate in SSMS. Procedure=" ++
            (if proc = "" then "unknown" else proc) ++ ", Message=" ++ msg)) := by
  constructor
  · intro n hn id proc msg whenAt
    simp only [List.mem_cons, List.not_mem_nil, or_false, not_or] at hn
    obtain ⟨h1, h2, h3, h4, h5⟩ := hn
    simp [classify_and_plan, pyNum, h1, h2, h3, h4, h5]
  · intro s hs id proc msg whenAt
    simp [classify_and_plan, pyNum, hs]

/-- C4 witness: code 9999 is outside the tables and maps to the default
P2 outcome echoing procedure and message. -/
theorem classifier_total_default_witness :
    ((9999 : Int) ∉ ([2601, 2627, 50003, 1205, 1222] : List Int)) ∧
    ((pyIsDigit "no-code") = false) ∧
    classify_and_plan ⟨7, "usp_Deposit", ErrVal.intVal 9999, "boom", "t"⟩ =
      ("P2", "Investigate in SSMS. Procedure=" ++
        (if "usp_Deposit" = "" then "unknown" else "usp_Deposit") ++ ", Message=" ++ "boom") ∧
    classify_and_plan ⟨7, "usp_Deposit", ErrVal.strVal "no-code", "boom", "t"⟩ =
      ("P2", "Investigate in SSMS. Procedure=" ++
        (if "usp_Deposit" = "" then "unknown" else "usp_Deposit") ++ ", Message=" ++ "boom") :=
  ⟨by decide, by decide,
   classifier_total_default.1 9999 (by decide) 7 "usp_Deposit" "boom" "t",
   classifier_total_default.2 "no-code" (by decide) 7 "usp_Deposit" "boom" "t"⟩

/-- C5: `classify_and_plan` reproduces the fixed mapping table: 2601 and
2627 map to P2 with the duplicate-reference remediation, 50003 maps to P3
with the insufficient-funds remediation, 1205 and 1222 map to P2 with the
transient-concurrency remediation. -/
theorem classifier_fixed_table :
    ∀ (id : Nat) (proc msg whenAt : String),
      classify_and_plan ⟨id, proc, ErrVal.intVal 2601, msg, whenAt⟩ = ("P2", dup_ref_plan) ∧
      classify_and_plan ⟨id, proc, ErrVal.intVal 2627, msg, whenAt⟩ = ("P2", dup_ref_plan) ∧
      classify_and_plan ⟨id, proc, ErrVal.intVal 50003, msg, whenAt⟩ =
        ("P3", insufficient_funds_plan) ∧
      classify_and_plan ⟨id, proc, ErrVal.intVal 1205, msg, whenAt⟩ =
        ("P2", transient_concurrency_plan) ∧
      classify_and_plan ⟨id, proc, ErrVal.intVal 1222, msg, whenAt⟩ =
        ("P2", transient_concurrency_plan) := by
  intro id proc msg whenAt
  refine ⟨rfl, rfl, rfl, rfl, rfl⟩

/-- C8: the numeric-token scan is total — for every failure value it
yields an optional code, and it yields `none` exactly when no whitespace
token of the sanitized failure text is an all-digit token.  In particular
a failure whose text contains no number produces `none` instead of an
exception (in this embedding `_extract_errnum` is a total function into
`Option Int` by construction). -/
theorem extract_code_total_scan :
    ∀ (ex : PyError),
      _extract_errnum ex = none ↔ ∀ t ∈ pyTokens (errText ex), pyIsDigit t = false := by
  intro ex
  simp only [_extract_errnum, Option.map_eq_none', List.find?_eq_none, Bool.not_eq_true]

/-- C8 witness: a digit-free failure text yields `none`. -/
theorem extract_code_total_scan_witness :
    (∀ t ∈ pyTokens (errText exNoDigits), pyIsDigit t = false) ∧
    _extract_errnum exNoDigits = none :=
  ⟨by decide, (extract_code_total_scan exNoDigits).mpr (by decide)⟩

/-- C5 witness: the table rows evaluated at a concrete record. -/
theorem classifier_fixed_table_witness :
    classify_and_plan ⟨1, "usp_Deposit", ErrVal.intVal 2601, "dup", "t"⟩ = ("P2", dup_ref_plan) :=
  (classifier_fixed_table 1 "usp_Deposit" "dup" "t").1

/-- C2: for every retry-eligible code, if the wrapped operation fails
with that code on every attempt, `with_retry` invokes the operation
exactly `max_attempts` times (default 3) and then lets the failure
propagate (FatalError); the k-th recorded sleep before a retry is
`base_delay * k` — linear in the attempt index, not `base_delay ^ k` —
and with the default `base_delay` 0.8 (= 4/5) the sleeps are 0.8, 1.6. -/
theorem retry_exhaustion_linear_backoff :
    ∀ code ∈ TRANSIENT_ERRORS, ∀ (ex : PyError), _extract_errnum ex = some code →
      ∀ (maxA : Nat) (base : ℚ), 1 ≤ maxA →
        (with_retry maxA base (fun _ => (Except.error ex : Except PyError Unit))).out =
          RetryOut.raised ex ∧
        (with_retry maxA base (fun _ => (Except.error ex : Except PyError Unit))).calls = maxA ∧
        (with_retry maxA base (fun _ => (Except.error ex : Except PyError Unit))).delays.length =
          maxA - 1 ∧
        (∀ (k : Nat), 1 ≤ k → k ≤ maxA - 1 →
          (with_retry maxA base
              (fun _ => (Except.error ex : Except PyError Unit))).delays[k - 1]? =
            some (base * (k : ℚ))) ∧
        (with_retry 3 (4/5) (fun _ => (Except.error ex : Except PyError Unit))).delays =
          [4/5, 8/5] := by
  intro code hcode ex hex maxA base hmax
  have htr : inCodes (_extract_errnum ex) TRANSIENT_ERRORS = true := by
    rw [hex]
    fin_cases hcode <;> decide
  have hall := @with_retry_all_fail Unit ex maxA base htr hmax
  have hall3 := @with_retry_all_fail Unit ex 3 (4/5) htr (by norm_num)
  refine ⟨?_, ?_, ?_, ?_, ?_⟩
  · rw [hall]
  · rw [hall]
  · rw [hall]; simp
  · intro k hk1 hk2
    have hlt : k - 1 < maxA - 1 := by omega
    have hk : (1 + (k - 1) : ℕ) = k := by omega
    rw [hall]
    show ((List.range (maxA - 1)).map (fun i => base * ((1 + i : ℕ) : ℚ)))[k - 1]? =
      some (base * (k : ℚ))
    rw [List.getElem?_map, List.getElem?_range hlt, Option.map_some', hk]
  · rw [hall3]
    show (List.range 2).map (fun i => (4/5 : ℚ) * ((1 + i : ℕ) : ℚ)) = [4/5, 8/5]
    norm_num [List.range_succ]

/-- C2 witness: deadlock code 1205 failing on every attempt with the
default attempt limit and base delay. -/
theorem retry_exhaustion_witness :
    ((1205 : Int) ∈ TRANSIENT_ERRORS) ∧ (_extract_errnum exDeadlock = some 1205) ∧
    (1 ≤ 3) ∧
    (with_retry 3 (4/5) (fun _ => (Except.error exDeadlock : Except PyError Unit))).delays =
      [4/5, 8/5] :=
  ⟨by decide, by decide, by decide,
    (retry_exhaustion_linear_backoff 1205 (by decide) exDeadlock (by decide) 3 (4/5)
      (by decide)).2.2.2.2⟩

/-- C3: for every business code, an operation failing with that code is
rejected on the first failure — one call, no sleeps — the wrapper
returns the business-rejection value `False`, and the handler rolled the
transaction back before returning it. -/
theorem business_rejection_immediate :
    ∀ code ∈ BUSINESS_ERRORS, ∀ (ex : PyError), _extract_errnum ex = some code →
      ∀ (maxA : Nat) (base : ℚ),
        transfer (fun _ => SqlRes.fail ex) maxA base =
          ⟨RetryOut.done InnerVal.retFalse, [], 1⟩ ∧
        deposit (fun _ => SqlRes.fail ex) maxA base =
          ⟨RetryOut.done InnerVal.retFalse, [], 1⟩ ∧
        withdraw (fun _ => SqlRes.fail ex) maxA base =
          ⟨RetryOut.done InnerVal.retFalse, [], 1⟩ ∧
        (opBody (SqlRes.fail ex)).1 = TxEffect.rolledBack := by
  intro code hcode ex hex maxA base
  have hbus : is_business_error ex = true := by
    rw [is_business_error, hex]
    fin_cases hcode <;> decide
  refine ⟨?_, ?_, ?_, by simp [opBody]⟩
  · rw [transfer, with_retry]
    exact retryFrom_first_ok _ maxA base 1 InnerVal.retFalse (by simp [opBody, hbus])
  · rw [deposit, with_retry]
    exact retryFrom_first_ok _ maxA base 1 InnerVal.retFalse (by simp [opBody, hbus])
  · rw [withdraw, with_retry]
    exact retryFrom_first_ok _ maxA base 1 InnerVal.retFalse (by simp [opBody, hbus])

/-- C3 witness: insufficient-funds code 50003 rejected on first failure
with rollback and no delay. -/
theorem business_rejection_witness :
    ((50003 : Int) ∈ BUSINESS_ERRORS) ∧ (_extract_errnum exFunds = some 50003) ∧
    transfer (fun _ => SqlRes.fail exFunds) 3 (4/5) =
      ⟨RetryOut.done InnerVal.retFalse, [], 1⟩ ∧
    (opBody (SqlRes.fail exFunds)).1 = TxEffect.rolledBack :=
  ⟨by decide, by decide,
    (business_rejection_immediate 50003 (by decide) exFunds (by decide) 3 (4/5)).1,
    (business_rejection_immediate 50003 (by decide) exFunds (by decide) 3 (4/5)).2.2.2⟩

/-- C9: code 2627 classifies exactly like 2601 (P2, duplicate-reference
remediation) yet sits in neither the retry-eligible set nor the business
set, so an operation failing with 2627 makes one attempt, is rolled
back, and the error propagates as a fatal failure — while 2601 yields
the business rejection after the same rollback. -/
theorem code_2627_fatal_unlike_2601 :
    (∀ (id : Nat) (proc msg whenAt : String),
      classify_and_plan ⟨id, proc, ErrVal.intVal 2627, msg, whenAt⟩ =
        classify_and_plan ⟨id, proc, ErrVal.intVal 2601, msg, whenAt⟩) ∧
    ((2627 : Int) ∉ TRANSIENT_ERRORS) ∧ ((2627 : Int) ∉ BUSINESS_ERRORS) ∧
    (∀ (ex : PyError), _extract_errnum ex = some 2627 → ∀ (maxA : Nat) (base : ℚ),
      transfer (fun _ => SqlRes.fail ex) maxA base = ⟨RetryOut.raised ex, [], 1⟩ ∧
      (opBody (SqlRes.fail ex)).1 = TxEffect.rolledBack) ∧
    (∀ (ex : PyError), _extract_errnum ex = some 2601 → ∀ (maxA : Nat) (base : ℚ),
      transfer (fun _ => SqlRes.fail ex) maxA base =
        ⟨RetryOut.done InnerVal.retFalse, [], 1⟩) := by
  refine ⟨fun id proc msg whenAt => rfl, by decide, by decide, ?_, ?_⟩
  · intro ex hex maxA base
    have hnb : is_business_error ex = false := by
      rw [is_business_error, hex]; decide
    have hnt : inCodes (_extract_errnum ex) TRANSIENT_ERRORS = false := by
      rw [hex]; decide
    refine ⟨?_, by simp [opBody]⟩
    rw [transfer, with_retry]
    exact retryFrom_first_raise _ maxA base 1 ex (by simp [opBody, hnb]) hnt
  · intro ex hex maxA base
    have hb : is_business_error ex = true := by
      rw [is_business_error, hex]; decide
    rw [transfer, with_retry]
    exact retryFrom_first_ok _ maxA base 1 InnerVal.retFalse (by simp [opBody, hb])

/-- C9 witness: concrete 2627 and 2601 failures compared. -/
theorem code_2627_fatal_witness :
    (_extract_errnum exDup2627 = some 2627) ∧ (_extract_errnum exDup2601 = some 2601) ∧
    transfer (fun _ => SqlRes.fail exDup2627) 3 (4/5) =
      ⟨RetryOut.raised exDup2627, [], 1⟩ ∧
    transfer (fun _ => SqlRes.fail exDup2601) 3 (4/5) =
      ⟨RetryOut.done InnerVal.retFalse, [], 1⟩ :=
  ⟨by decide, by decide,
    (code_2627_fatal_unlike_2601.2.2.2.1 exDup2627 (by decide) 3 (4/5)).1,
    code_2627_fatal_unlike_2601.2.2.2.2 exDup2601 (by decide) 3 (4/5)⟩

/-- When the agent.py send raises, the cycle aborts before the watermark
write. -/
theorem agent_main_raised_watermark (env : AgentEnv) (w : Nat)
    (hres : (agent_main env w).sendResult = some SendResult.raisedSend) :
    (agent_main env w).watermark = w := by
  rcases hh : html_report env.now (fetch_new_errors env.log w) env.issues with _ | s
  · simp [agent_main, hh] at hres
  · by_cases hr : agent_send_email env.cfg env.smtpOk = SendResult.raisedSend
    · simp [agent_main, hh, hr]
    · simp [agent_main, hh, hr] at hres

/-- When the ai_agent.py send raises, the cycle aborts before the
watermark write. -/
theorem run_once_raised_watermark (env : AiEnv) (w : Nat)
    (hres : (run_once env w).sendResult = some SendResult.raisedSend) :
    (run_once env w).watermark = w := by
  by_cases hskip : ((fetch_new_errors env.log w).isEmpty && env.issues.isEmpty
      && !env.sendWhenIdle) = true
  · simp [run_once, hskip] at hres
  · by_cases hr : ai_send_email env.cfg env.smtpOk = SendResult.raisedSend
    · simp [run_once, hskip, hr]
    · simp [run_once, hskip, hr] at hres

/-- Ids reported by an agent.py cycle are strictly past its watermark. -/
theorem agent_main_fetched_gt (e : AgentEnv) (w j : Nat)
    (h : j ∈ (agent_main e w).fetched.map (fun r => r.errorId)) : w < j := by
  rw [agent_main_fetched] at h
  rcases List.mem_map.mp h with ⟨r, hr, hrj⟩
  rw [← hrj]
  exact fetch_mem_gt hr

/-- Ids reported by an ai_agent.py cycle are strictly past its watermark. -/
theorem run_once_fetched_gt (e : AiEnv) (w j : Nat)
    (h : j ∈ (run_once e w).fetched.map (fun r => r.errorId)) : w < j := by
  rw [run_once_fetched] at h
  rcases List.mem_map.mp h with ⟨r, hr, hrj⟩
  rw [← hrj]
  exact fetch_mem_gt hr

/-- C1 counterexample: in the monitor_errors.py entry point the watermark
is written as soon as rows are fetched, before delivery: with one new
row (id 1) and an SMTP failure the delivery step fails, yet the stored
watermark becomes 1 and the next fetch no longer returns the row — so
the claim "the watermark advance happens only after the delivery step
has completed successfully, in every entry point" fails there. -/
theorem monitor_failed_delivery_advances :
    (monitor_main cexMonitorEnv 0).sendAttempted = true ∧
    (monitor_main cexMonitorEnv 0).sendResult = some SendResult.raisedSend ∧
    (monitor_main cexMonitorEnv 0).watermark = 1 ∧
    fetch_new_errors cexMonitorEnv.log (monitor_main cexMonitorEnv 0).watermark = [] := by
  refine ⟨by decide, by decide, by decide, by decide⟩

/-- C1 (amended): in the agent.py and ai_agent.py entry points a failed
delivery leaves the watermark unchanged, so those cycles re-fetch and
re-report exactly the same records next time (plus any newer rows the
log then contains); in the monitor_errors.py entry point the watermark
is instead written to the last fetched id before delivery is attempted,
whatever the delivery outcome. -/
theorem failed_delivery_keeps_watermark :
    (∀ (env : AgentEnv) (w : Nat),
      (agent_main env w).sendResult = some SendResult.raisedSend →
        (agent_main env w).watermark = w ∧
        (agent_main env w).fetched = fetch_new_errors env.log w ∧
        (∀ (log2 : List ErrRow), (∀ r ∈ (agent_main env w).fetched, r ∈ log2) →
          ∀ r ∈ (agent_main env w).fetched,
            r ∈ fetch_new_errors log2 (agent_main env w).watermark)) ∧
    (∀ (env : AiEnv) (w : Nat),
      (run_once env w).sendResult = some SendResult.raisedSend →
        (run_once env w).watermark = w ∧
        (run_once env w).fetched = fetch_new_errors env.log w ∧
        (∀ (log2 : List ErrRow), (∀ r ∈ (run_once env w).fetched, r ∈ log2) →
          ∀ r ∈ (run_once env w).fetched,
            r ∈ fetch_new_errors log2 (run_once env w).watermark)) ∧
    (∀ (env : MonitorEnv) (w : Nat),
      (monitor_main env w).watermark = lastRowId (fetch_new_errors env.log w) w) := by
  refine ⟨?_, ?_, ?_⟩
  · intro env w hres
    have hcr := agent_main_raised_watermark env w hres
    refine ⟨hcr, agent_main_fetched env w, ?_⟩
    intro log2 hsub r hr
    have hgt : w < r.errorId := by
      rw [agent_main_fetched] at hr
      exact fetch_mem_gt hr
    rw [hcr]
    exact List.mem_filter.mpr ⟨hsub r hr, by simp [hgt]⟩
  · intro env w hres
    have hcr := run_once_raised_watermark env w hres
    refine ⟨hcr, run_once_fetched env w, ?_⟩
    intro log2 hsub r hr
    have hgt : w < r.errorId := by
      rw [run_once_fetched] at hr
      exact fetch_mem_gt hr
    rw [hcr]
    exact List.mem_filter.mpr ⟨hsub r hr, by simp [hgt]⟩
  · intro env w
    simp only [monitor_main]
    split
    · split <;> rfl
    · rfl

/-- C1 (amended) witness: agent.py cycle whose SMTP send raises keeps
the watermark at 0. -/
theorem failed_delivery_keeps_watermark_witness :
    (agent_main cexAgentEnv 0).sendResult = some SendResult.raisedSend ∧
    (agent_main cexAgentEnv 0).watermark = 0 :=
  ⟨by decide, (failed_delivery_keeps_watermark.1 cexAgentEnv 0 (by decide)).1⟩

/-- C6: across any sequence of agent.py / ai_agent.py poll cycles —
including cycles that fetch nothing and cycles whose delivery raises —
the stored watermark never decreases, and after the whole run it equals
the maximum id over all records that were part of a report whose
delivery step completed (0 when there is none). -/
theorem watermark_monotone_exact :
    (∀ (envs : List AgentEnv), (∀ e ∈ envs, logSorted e.log) →
      traceW agent_main 0 envs = foldMax (traceDelivered agent_main 0 envs) ∧
      (∀ (pre post : List AgentEnv), envs = pre ++ post →
        traceW agent_main 0 pre ≤ traceW agent_main 0 envs)) ∧
    (∀ (envs : List AiEnv),
      traceW run_once 0 envs = foldMax (traceDelivered run_once 0 envs) ∧
      (∀ (pre post : List AiEnv), envs = pre ++ post →
        traceW run_once 0 pre ≤ traceW run_once 0 envs)) := by
  constructor
  · intro envs hs
    constructor
    · have h := traceW_foldMax agent_main (fun e => logSorted e.log)
        (fun e w he => agent_main_fold e w he) envs 0 hs
      rw [h]
      exact Nat.zero_max _
    · intro pre post hsplit
      subst hsplit
      rw [traceW_append]
      exact traceW_le agent_main agent_main_mono post _
  · intro envs
    constructor
    · have h := traceW_foldMax run_once (fun _ => True)
        (fun e w _ => run_once_fold e w) envs 0 (fun _ _ => trivial)
      rw [h]
      exact Nat.zero_max _
    · intro pre post hsplit
      subst hsplit
      rw [traceW_append]
      exact traceW_le run_once run_once_mono post _

/-- C6 witness: a failed-delivery cycle followed by a successful one
leaves the watermark equal to the one delivered id. -/
theorem watermark_monotone_exact_witness :
    (∀ e ∈ [cexAgentEnv, cexAgentEnvOk], logSorted e.log) ∧
    traceW agent_main 0 [cexAgentEnv, cexAgentEnvOk] =
      foldMax (traceDelivered agent_main 0 [cexAgentEnv, cexAgentEnvOk]) :=
  ⟨by decide, (watermark_monotone_exact.1 [cexAgentEnv, cexAgentEnvOk] (by decide)).1⟩

/-- C7: the Report Builder returns null exactly when both inputs are
empty, and in that case the agent.py poller never invokes the delivery
collaborator and the stored watermark is unchanged. -/
theorem report_null_skips_delivery :
    (∀ (now : String) (rows : List ErrRow) (issues : List Finding),
      html_report now rows issues = none ↔ rows = [] ∧ issues = []) ∧
    (∀ (env : AgentEnv) (w : Nat),
      fetch_new_errors env.log w = [] → env.issues = [] →
        (agent_main env w).sendAttempted = false ∧
        (agent_main env w).sendResult = none ∧
        (agent_main env w).watermark = w) := by
  constructor
  · exact html_report_none_iff
  · intro env w hf hi
    have hnone : html_report env.now [] env.issues = none :=
      (html_report_none_iff env.now [] env.issues).mpr ⟨rfl, hi⟩
    refine ⟨?_, ?_, ?_⟩ <;> simp [agent_main, hf, hnone, lastRowId]

/-- C7 witness: empty log, no findings — no send, watermark stays 0. -/
theorem report_null_skips_delivery_witness :
    (fetch_new_errors cexAgentEnvEmpty.log 0 = []) ∧ (cexAgentEnvEmpty.issues = []) ∧
    (agent_main cexAgentEnvEmpty 0).sendAttempted = false ∧
    (agent_main cexAgentEnvEmpty 0).watermark = 0 :=
  ⟨by decide, by decide,
    (report_null_skips_delivery.2 cexAgentEnvEmpty 0 (by decide) (by decide)).1,
    (report_null_skips_delivery.2 cexAgentEnvEmpty 0 (by decide) (by decide)).2.2⟩

/-- C10: with an incomplete SMTP configuration both send_email helpers
return normally without sending; a cycle with new rows therefore treats
the undelivered report as handed off and advances the watermark to the
maximum fetched id, and since every later fetch is strictly past the
(non-decreasing) watermark, those ids are never reported again by that
entry point. -/
theorem unconfigured_smtp_silently_drops :
    (∀ (env : AgentEnv) (w : Nat), logSorted env.log →
      agentSmtpConfigured env.cfg = false →
      fetch_new_errors env.log w ≠ [] →
      (agent_main env w).sendResult = some SendResult.skippedCfg ∧
      (agent_main env w).crashed = false ∧
      (agent_main env w).watermark =
        foldMax ((fetch_new_errors env.log w).map (fun r => r.errorId)) ∧
      (∀ (envs : List AgentEnv) (i : Nat),
        i ∈ (fetch_new_errors env.log w).map (fun r => r.errorId) →
        i ∉ traceFetched agent_main (agent_main env w).watermark envs)) ∧
    (∀ (env : AiEnv) (w : Nat),
      aiSmtpConfigured env.cfg = false →
      fetch_new_errors env.log w ≠ [] →
      (run_once env w).sendResult = some SendResult.skippedCfg ∧
      (run_once env w).crashed = false ∧
      (run_once env w).watermark =
        foldMax ((fetch_new_errors env.log w).map (fun r => r.errorId)) ∧
      (∀ (envs : List AiEnv) (i : Nat),
        i ∈ (fetch_new_errors env.log w).map (fun r => r.errorId) →
        i ∉ traceFetched run_once (run_once env w).watermark envs)) := by
  constructor
  · intro env w hs hcfg hne
    have hsend : agent_send_email env.cfg env.smtpOk = SendResult.skippedCfg := by
      simp [agent_send_email, hcfg]
    have hnr : ¬ agent_send_email env.cfg env.smtpOk = SendResult.raisedSend := by
      simp [hsend]
    obtain ⟨s, hh⟩ :
        ∃ s, html_report env.now (fetch_new_errors env.log w) env.issues = some s := by
      rcases hx : html_report env.now (fetch_new_errors env.log w) env.issues with _ | s
      · exact absurd ((html_report_none_iff env.now _ _).mp hx).1 hne
      · exact ⟨s, rfl⟩
    rcases List.exists_mem_of_ne_nil _ hne with ⟨r, hr⟩
    have hgt : w < foldMax ((fetch_new_errors env.log w).map (fun x => x.errorId)) :=
      lt_of_lt_of_le (fetch_mem_gt hr) (le_foldMax (List.mem_map_of_mem _ hr))
    have hwm : (agent_main env w).watermark =
        foldMax ((fetch_new_errors env.log w).map (fun x => x.errorId)) := by
      have h0 := lastRowId_foldMax (fetch_sorted w hs) (fun x hx => fetch_mem_gt hx)
      simp only [agent_main, hh, hsend]
      simp only [reduceCtorEq, if_false]
      rw [h0]
      exact Nat.max_eq_right (le_of_lt hgt)
    refine ⟨?_, ?_, hwm, ?_⟩
    · simp [agent_main, hh, hsend]
    · simp [agent_main, hh, hsend]
    · intro envs i hi hcontra
      have hlt := traceFetched_gt agent_main agent_main_mono agent_main_fetched_gt envs
        (agent_main env w).watermark i hcontra
      have hle : i ≤ (agent_main env w).watermark := by
        rw [hwm]
        exact le_foldMax hi
      omega
  · intro env w hcfg hne
    have hsend : ai_send_email env.cfg env.smtpOk = SendResult.skippedCfg := by
      simp [ai_send_email, hcfg]
    have hnr : ¬ ai_send_email env.cfg env.smtpOk = SendResult.raisedSend := by
      simp [hsend]
    have hie : (fetch_new_errors env.log w).isEmpty = false := by
      cases hfe : fetch_new_errors env.log w with
      | nil => exact absurd hfe hne
      | cons a t => rfl
    rcases List.exists_mem_of_ne_nil _ hne with ⟨r, hr⟩
    have hgt : w < foldMax ((fetch_new_errors env.log w).map (fun x => x.errorId)) :=
      lt_of_lt_of_le (fetch_mem_gt hr) (le_foldMax (List.mem_map_of_mem _ hr))
    have hfne : ¬ (foldMax ((fetch_new_errors env.log w).map (fun x => x.errorId)) = w) := by
      intro hc
      rw [hc] at hgt
      exact lt_irrefl w hgt
    have hwm : (run_once env w).watermark =
        foldMax ((fetch_new_errors env.log w).map (fun x => x.errorId)) := by
      simp [run_once, hie, hsend, hfne]
    refine ⟨?_, ?_, hwm, ?_⟩
    · simp [run_once, hie, hsend]
    · simp [run_once, hie, hsend]
    · intro envs i hi hcontra
      have hlt := traceFetched_gt run_once run_once_mono run_once_fetched_gt envs
        (run_once env w).watermark i hcontra
      have hle : i ≤ (run_once env w).watermark := by
        rw [hwm]
        exact le_foldMax hi
      omega

/-- C10 witness: one new row (id 1) with empty SMTP settings — the send
is skipped, yet the watermark jumps to 1. -/
theorem unconfigured_smtp_witness :
    logSorted cexAgentEnvNoCfg.log ∧
    agentSmtpConfigured cexAgentEnvNoCfg.cfg = false ∧
    fetch_new_errors cexAgentEnvNoCfg.log 0 ≠ [] ∧
    (agent_main cexAgentEnvNoCfg 0).sendResult = some SendResult.skippedCfg ∧
    (agent_main cexAgentEnvNoCfg 0).watermark = 1 :=
  ⟨by decide, by decide, by decide,
    (unconfigured_smtp_silently_drops.1 cexAgentEnvNoCfg 0 (by decide) (by decide)
      (by decide)).1,
    by decide⟩
